import Mathlib

set_option maxRecDepth 100000

/-!
Verification of the AlphaESS e-paper display program (`alphaess.py`).

The development shallowly embeds the program's components:

* `getSignature` — the SHA-512 request signature (`AlphaESSAPI.__get_signature`),
  over a full executable SHA-512 on byte lists (`sha512_hex`), validated against
  the FIPS 180-2 test vectors;
* `get_request` and the six endpoint operations
  (`get_ess_list`, `get_last_power_data`, `get_one_date_energy`,
  `get_one_date_power_by_sn`, `get_in_charge_config_info`,
  `get_out_charge_config_info`), with HTTP outcomes and the JSON envelope as
  explicit data and Python exceptions as `Except.error`;
* the module-level display state (the nine telemetry globals plus
  `current_screen`), the poll tick body of `poll_alphaess`, the two renderers
  `print_to_console` and `print_to_epaper`, and the two button handlers.

Machine integers are `Int`/`Nat`; a Python value that may be `None`
(`dict.get` misses) is an `Option`; a raised exception is `Except.error ()`.
-/

/-! ## SHA-512 (FIPS 180-2), over byte lists -/

/-- Truncate to a 64-bit word. -/
def w64 (n : Nat) : Nat := n % 2 ^ 64

/-- Right rotation of a 64-bit word. -/
def rotr (n x : Nat) : Nat := w64 ((x >>> n) ||| (x <<< (64 - n)))

/-- Bitwise complement of a 64-bit word. -/
def cpl64 (x : Nat) : Nat := x ^^^ (2 ^ 64 - 1)

/-- SHA-512 choice function. -/
def shaCh (e f g : Nat) : Nat := (e &&& f) ^^^ (cpl64 e &&& g)

/-- SHA-512 majority function. -/
def shaMaj (a b c : Nat) : Nat := (a &&& b) ^^^ (a &&& c) ^^^ (b &&& c)

/-- SHA-512 big sigma 0. -/
def bigS0 (a : Nat) : Nat := rotr 28 a ^^^ rotr 34 a ^^^ rotr 39 a

/-- SHA-512 big sigma 1. -/
def bigS1 (e : Nat) : Nat := rotr 14 e ^^^ rotr 18 e ^^^ rotr 41 e

/-- SHA-512 small sigma 0. -/
def smallS0 (x : Nat) : Nat := rotr 1 x ^^^ rotr 8 x ^^^ (x >>> 7)

/-- SHA-512 small sigma 1. -/
def smallS1 (x : Nat) : Nat := rotr 19 x ^^^ rotr 61 x ^^^ (x >>> 6)

/-- The eighty SHA-512 round constants of FIPS 180-2 (the fractional parts of
the cube roots of the first eighty primes), written in decimal; the two FIPS
test vectors below pin them down. -/
def shaK : List Nat :=
  [4794697086780616226, 8158064640168781261, 13096744586834688815,
   16840607885511220156, 4131703408338449720, 6480981068601479193,
   10538285296894168987, 12329834152419229976, 15566598209576043074,
   1334009975649890238, 2608012711638119052, 6128411473006802146,
   8268148722764581231, 9286055187155687089, 11230858885718282805,
   13951009754708518548, 16472876342353939154, 17275323862435702243,
   1135362057144423861, 2597628984639134821, 3308224258029322869,
   5365058923640841347, 6679025012923562964, 8573033837759648693,
   10970295158949994411, 12119686244451234320, 12683024718118986047,
   13788192230050041572, 14330467153632333762, 15395433587784984357,
   489312712824947311, 1452737877330783856, 2861767655752347644,
   3322285676063803686, 5560940570517711597, 5996557281743188959,
   7280758554555802590, 8532644243296465576, 9350256976987008742,
   10552545826968843579, 11727347734174303076, 12113106623233404929,
   14000437183269869457, 14369950271660146224, 15101387698204529176,
   15463397548674623760, 17586052441742319658, 1182934255886127544,
   1847814050463011016, 2177327727835720531, 2830643537854262169,
   3796741975233480872, 4115178125766777443, 5681478168544905931,
   6601373596472566643, 7507060721942968483, 8399075790359081724,
   8693463985226723168, 9568029438360202098, 10144078919501101548,
   10430055236837252648, 11840083180663258601, 13761210420658862357,
   14299343276471374635, 14566680578165727644, 15097957966210449927,
   16922976911328602910, 17689382322260857208, 500013540394364858,
   748580250866718886, 1242879168328830382, 1977374033974150939,
   2944078676154940804, 3659926193048069267, 4368137639120453308,
   4836135668995329356, 5532061633213252278, 6448918945643986474,
   6902733635092675308, 7801388544844847127]

/-- The SHA-512 initial hash value of FIPS 180-2 (the fractional parts of the
square roots of the first eight primes), in decimal. -/
def shaH0 : List Nat :=
  [7640891576956012808, 13503953896175478587, 4354685564936845355,
   11912009170470909681, 5840696475078001361, 11170449401992604703,
   2270897969802886507, 6620516959819538809]

/-- A natural number as `k` big-endian bytes. -/
def toBytesBE (k n : Nat) : List Nat :=
  (List.range k).map (fun i => (n >>> (8 * (k - 1 - i))) % 256)

/-- FIPS 180-2 padding: a `0x80` byte, zeros, then the bit length as sixteen
big-endian bytes, reaching a multiple of 128 bytes. -/
def padMessage (msg : List Nat) : List Nat :=
  let len := msg.length
  let zeros := (128 - (len + 17) % 128) % 128
  msg ++ [0x80] ++ List.replicate zeros 0 ++ toBytesBE 16 (8 * len)

/-- Split a byte list into 128-byte chunks: fuelled worker, structurally
recursive so that it evaluates inside the kernel. -/
def chunks128Go : Nat → List Nat → List (List Nat)
  | 0, _ => []
  | _, [] => []
  | fuel + 1, l => l.take 128 :: chunks128Go fuel (l.drop 128)

/-- Split a byte list into 128-byte chunks. -/
def chunks128 (l : List Nat) : List (List Nat) := chunks128Go l.length l

/-- A 64-bit word from eight big-endian bytes at the head of a list. -/
def wordOfBytes (l : List Nat) : Nat :=
  (List.range 8).foldl (fun acc i => acc * 256 + l.getD i 0) 0

/-- The eighty-entry SHA-512 message schedule of one 128-byte chunk. -/
def msgSchedule (chunk : List Nat) : List Nat :=
  let w16 := (List.range 16).map (fun i => wordOfBytes (chunk.drop (8 * i)))
  (List.range 64).foldl
    (fun w _ =>
      let t := w.length
      w ++ [w64 (smallS1 (w.getD (t - 2) 0) + w.getD (t - 7) 0 +
                 smallS0 (w.getD (t - 15) 0) + w.getD (t - 16) 0)])
    w16

/-- The eight SHA-512 working registers. -/
structure Regs where
  ra : Nat
  rb : Nat
  rc : Nat
  rd : Nat
  re : Nat
  rf : Nat
  rg : Nat
  rh : Nat
deriving DecidableEq

/-- One SHA-512 round. -/
def shaRound (w : List Nat) (r : Regs) (t : Nat) : Regs :=
  let T1 := w64 (r.rh + bigS1 r.re + shaCh r.re r.rf r.rg + shaK.getD t 0 + w.getD t 0)
  let T2 := w64 (bigS0 r.ra + shaMaj r.ra r.rb r.rc)
  ⟨w64 (T1 + T2), r.ra, r.rb, r.rc, w64 (r.rd + T1), r.re, r.rf, r.rg⟩

/-- Compress one 128-byte chunk into the running hash (eight words). -/
def compressChunk (h : List Nat) (chunk : List Nat) : List Nat :=
  let w := msgSchedule chunk
  let r0 : Regs := ⟨h.getD 0 0, h.getD 1 0, h.getD 2 0, h.getD 3 0,
                    h.getD 4 0, h.getD 5 0, h.getD 6 0, h.getD 7 0⟩
  let r := (List.range 80).foldl (shaRound w) r0
  List.zipWith (fun x y => w64 (x + y)) h
    [r.ra, r.rb, r.rc, r.rd, r.re, r.rf, r.rg, r.rh]

/-- SHA-512 of a byte list, as the eight final hash words. -/
def sha512Words (msg : List Nat) : List Nat :=
  (chunks128 (padMessage msg)).foldl compressChunk shaH0

/-- A hex digit character, lowercase as Python's `hexdigest` emits. -/
def hexChar (n : Nat) : Char :=
  if n < 10 then Char.ofNat (48 + n) else Char.ofNat (87 + n)

/-- A 64-bit word as sixteen hex characters, most significant first. -/
def wordHex (w : Nat) : List Char :=
  (List.range 16).map (fun i => hexChar ((w >>> (4 * (15 - i))) % 16))

/-- SHA-512 of a byte list as its 128-character lowercase hex digest. -/
def sha512_hex (msg : List Nat) : String :=
  String.mk ((sha512Words msg).map wordHex).flatten

/-- The ASCII code points of a string (Python `str.encode("ascii")` when every
character is below 128). -/
def asciiBytes (s : String) : List Nat := s.toList.map Char.toNat

/-- Whether every character of a string is ASCII, so that Python's
`encode("ascii")` succeeds rather than raising `UnicodeEncodeError`. -/
def allAscii (s : String) : Bool := s.toList.all (fun c => c.toNat < 128)

/-- `AlphaESSAPI.__get_signature`: the SHA-512 hex digest of
`appId + appSecret + timestamp` encoded as ASCII; an `error` is Python's
`UnicodeEncodeError` when the concatenation is not pure ASCII. -/
def getSignature (appId appSecret timestamp : String) : Except Unit String :=
  if allAscii (appId ++ appSecret ++ timestamp) then
    .ok (sha512_hex (asciiBytes (appId ++ appSecret ++ timestamp)))
  else .error ()

/-- FIPS 180-2 test vector: SHA-512 of `"abc"`. -/
theorem sha512_hex_abc :
    sha512_hex (asciiBytes "abc") =
      "ddaf35a193617abacc417349ae20413112e6fa4e89a97ea20a9eeee64b55d39a2192992a274fc1a836ba3c23a3feebbd454d4423643ce80e2a9ac94fa54ca49f" := by
  decide

/-- FIPS 180-2 test vector: SHA-512 of the empty message. -/
theorem sha512_hex_empty :
    sha512_hex [] =
      "cf83e1357eefb8bdf1542850d66d8007d620e4050b5715dc83f4a921d36ce9ce47d0d13c5d85f2b0ff8318d2877eec2f63b931bd47417a81a538327af927da3e" := by
  decide

/-! ## HTTP transport and the JSON envelope -/

/-- The vendor JSON envelope: `code`, `msg`, and the endpoint-specific `data`
payload. -/
structure Envelope (α : Type) where
  code : Int
  msg : String
  data : α
deriving DecidableEq

/-- What the network hands back for one request: either the request machinery
itself raises (DNS, connect, read errors), or a response arrives with an HTTP
status and a body that may or may not parse as JSON (`none` = not JSON, so
`resp.json()` raises). -/
inductive HttpOutcome (α : Type) where
  | netError
  | response (status : Int) (body : Option (Envelope α))
deriving DecidableEq

/-- The log records the program emits through `logger.error`, structured by
call site, carrying the same status or vendor `code`/`msg` data the f-strings
interpolate. -/
inductive LogEntry where
  | getRequestError (status : Int)
  | postRequestError (status : Int)
  | essListError (code : Int) (msg : String)
  | lastPowerDataError (code : Int) (msg : String)
  | oneDateEnergyError (code : Int) (msg : String)
  | oneDatePowerError (code : Int) (msg : String)
  | inChargeConfigError (code : Int) (msg : String)
  | outChargeConfigError (code : Int) (msg : String)
deriving DecidableEq

/-- `AlphaESSAPI.__get_request`: parse the body as JSON first (`await
resp.json()` — raising if it is not JSON, whatever the status), then return the
envelope on HTTP 200 and log-and-return-`None` otherwise. `Except.error` is a
raised exception escaping the method. -/
def get_request (α : Type) (h : HttpOutcome α) :
    Except Unit (Option (Envelope α)) × List LogEntry :=
  match h with
  | .netError => (.error (), [])
  | .response status body =>
    match body with
    | none => (.error (), [])
    | some j =>
      if status = 200 then (.ok (some j), [])
      else (.ok none, [.getRequestError status])

/-- `AlphaESSAPI.__post_request`: identical shape to `__get_request`, with the
parameters sent as a JSON body instead of a query string. -/
def post_request (α : Type) (h : HttpOutcome α) :
    Except Unit (Option (Envelope α)) × List LogEntry :=
  match h with
  | .netError => (.error (), [])
  | .response status body =>
    match body with
    | none => (.error (), [])
    | some j =>
      if status = 200 then (.ok (some j), [])
      else (.ok none, [.postRequestError status])

/-! ## TelemetryService endpoint operations -/

/-- One registered ESS as `getEssList` reports it: its serial number plus the
rest of the record (cobat, emsStatus, …) abstracted as one further field. -/
structure SystemInfo where
  sysSn : String
  cobat : Int
deriving DecidableEq

/-- The shape of `getEssList`'s `data` field: the server may send one object
or an array (`type(r['data']) == list`). -/
inductive EssData where
  | single (s : SystemInfo)
  | array (l : List SystemInfo)
deriving DecidableEq

/-- The possible values of the `sys_sn_list` attribute: `None` at
construction, a list of serial strings from the array branch, or one bare
serial string from the single-object branch. -/
inductive SnList where
  | noneYet
  | strList (l : List String)
  | oneStr (s : String)
deriving DecidableEq

/-- `AlphaESSAPI.get_ess_list`: on `code = 200` normalize `data` to a list
(wrapping a single object) and set `sys_sn_list` — to the `sysSn` fields in
order for an array, and to the bare `sysSn` value for a single object;
otherwise log the vendor code and msg and return `None`. Takes the prior
`sys_sn_list` and returns (result, new `sys_sn_list`, log). -/
def get_ess_list (old : SnList) (h : HttpOutcome EssData) :
    Except Unit (Option (List SystemInfo)) × SnList × List LogEntry :=
  match get_request EssData h with
  | (.error e, ls) => (.error e, old, ls)
  | (.ok none, ls) => (.ok none, old, ls)
  | (.ok (some r), ls) =>
    if r.code = 200 then
      match r.data with
      | .array l => (.ok (some l), .strList (l.map SystemInfo.sysSn), ls)
      | .single s => (.ok (some [s]), .oneStr s.sysSn, ls)
    else (.ok none, old, ls ++ [.essListError r.code r.msg])

/-- The `data` payload of `getLastPowerData`: a dict whose keys may be absent
(`dict.get` then yields `None`). -/
structure PowerDict where
  ppv : Option Int
  soc : Option Int
  pgrid : Option Int
  pbat : Option Int
  pload : Option Int
deriving DecidableEq

/-- The `data` payload of `getOneDateEnergyBySn`, keys again optional. -/
structure EnergyDict where
  epv : Option Int
  eOutput : Option Int
  eInput : Option Int
deriving DecidableEq

/-- `AlphaESSAPI.get_last_power_data`: envelope check `code = 200`, then the
raw `data` dict; vendor failure is logged and yields `None`. -/
def get_last_power_data (h : HttpOutcome PowerDict) :
    Except Unit (Option PowerDict) × List LogEntry :=
  match get_request PowerDict h with
  | (.error e, ls) => (.error e, ls)
  | (.ok none, ls) => (.ok none, ls)
  | (.ok (some r), ls) =>
    if r.code = 200 then (.ok (some r.data), ls)
    else (.ok none, ls ++ [.lastPowerDataError r.code r.msg])

/-- `AlphaESSAPI.get_one_date_energy`: same envelope discipline for the daily
energy totals; `date` goes into the query string and does not affect the
control flow. -/
def get_one_date_energy (date : String) (h : HttpOutcome EnergyDict) :
    Except Unit (Option EnergyDict) × List LogEntry :=
  match get_request EnergyDict h with
  | (.error e, ls) => (.error e, ls)
  | (.ok none, ls) => (.ok none, ls)
  | (.ok (some r), ls) =>
    if r.code = 200 then (.ok (some r.data), ls)
    else (.ok none, ls ++ [.oneDateEnergyError r.code r.msg])

/-- `AlphaESSAPI.get_one_date_power_by_sn`: same envelope discipline; the
payload type is opaque to the control flow. -/
def get_one_date_power_by_sn (α : Type) (sn date : String) (h : HttpOutcome α) :
    Except Unit (Option α) × List LogEntry :=
  match get_request α h with
  | (.error e, ls) => (.error e, ls)
  | (.ok none, ls) => (.ok none, ls)
  | (.ok (some r), ls) =>
    if r.code = 200 then (.ok (some r.data), ls)
    else (.ok none, ls ++ [.oneDatePowerError r.code r.msg])

/-- `AlphaESSAPI.get_in_charge_config_info`: same envelope discipline. -/
def get_in_charge_config_info (α : Type) (sn : String) (h : HttpOutcome α) :
    Except Unit (Option α) × List LogEntry :=
  match get_request α h with
  | (.error e, ls) => (.error e, ls)
  | (.ok none, ls) => (.ok none, ls)
  | (.ok (some r), ls) =>
    if r.code = 200 then (.ok (some r.data), ls)
    else (.ok none, ls ++ [.inChargeConfigError r.code r.msg])

/-- `AlphaESSAPI.get_out_charge_config_info`: same envelope discipline. -/
def get_out_charge_config_info (α : Type) (sn : String) (h : HttpOutcome α) :
    Except Unit (Option α) × List LogEntry :=
  match get_request α h with
  | (.error e, ls) => (.error e, ls)
  | (.ok none, ls) => (.ok none, ls)
  | (.ok (some r), ls) =>
    if r.code = 200 then (.ok (some r.data), ls)
    else (.ok none, ls ++ [.outChargeConfigError r.code r.msg])

/-! ## Display state, renderers, poll tick, button handlers -/

/-- The module-level globals of `alphaess.py`: nine telemetry variables (all
initialized to `0`, except `current_datetime` initialized to the startup
time) plus `current_screen`. After a tick each telemetry field holds whatever
`dict.get` returned, so a field may be `none` (Python `None`). Dates and
times are abstracted to `Nat` instants. -/
structure DisplayState where
  current_power_production : Option Int
  battery_level : Option Int
  grid_power : Option Int
  battery_power : Option Int
  current_load : Option Int
  power_generation : Option Int
  output_to_grid : Option Int
  input_from_grid : Option Int
  current_datetime : Nat
  current_screen : Nat
deriving DecidableEq

/-- The globals at module load: zeros, `datetime.now()` at startup (`t0`), and
screen 1. -/
def initialState (t0 : Nat) : DisplayState :=
  { current_power_production := some 0
    battery_level := some 0
    grid_power := some 0
    battery_power := some 0
    current_load := some 0
    power_generation := some 0
    output_to_grid := some 0
    input_from_grid := some 0
    current_datetime := t0
    current_screen := 1 }

/-- Python `str` on a value that may be `None`. -/
def pyStr : Option Int → String
  | none => "None"
  | some n => toString n

/-- The five assignments from `current_power_data.get(...)` in the tick body
(`dict.get` never raises; missing keys become `None`). -/
def assignPower (s : DisplayState) (p : PowerDict) : DisplayState :=
  { s with
    current_power_production := p.ppv
    battery_level := p.soc
    grid_power := p.pgrid
    battery_power := p.pbat
    current_load := p.pload }

/-- The three assignments from `energy_stats.get(...)` plus
`current_datetime = datetime.now()`. -/
def assignEnergy (s : DisplayState) (e : EnergyDict) (now : Nat) : DisplayState :=
  { s with
    power_generation := e.epv
    output_to_grid := e.eOutput
    input_from_grid := e.eInput
    current_datetime := now }

/-- The `try` block of one `poll_alphaess` tick. Both fetches run before any
assignment; a fetch that raises (`Except.error`) or a `None` result whose
`.get` raises `AttributeError` aborts the block at that point — the bare
`except` then catches it. Returns the state as the block leaves it (Python
does not roll back the already-assigned globals) and whether an exception was
caught (`true` = the `except` branch ran). -/
def tickTryBody (s : DisplayState) (fp : Except Unit (Option PowerDict))
    (fe : Except Unit (Option EnergyDict)) (now : Nat) : DisplayState × Bool :=
  match fp with
  | .error _ => (s, true)
  | .ok pd =>
    match fe with
    | .error _ => (s, true)
    | .ok ed =>
      match pd with
      | none => (s, true)
      | some p =>
        let s1 := assignPower s p
        match ed with
        | none => (s1, true)
        | some e => (assignEnergy s1 e now, false)

/-- `print_to_console`: the lines printed for one tick, in order. Comparing a
`None` battery or grid value against `0` raises `TypeError`
(`Except.error`). -/
def print_to_console (s : DisplayState) : Except Unit (List String) :=
  let header :=
    ["Current date and time: " ++ toString s.current_datetime,
     String.mk (List.replicate 49 (Char.ofNat 61)),
     "Current power production: " ++ pyStr s.current_power_production,
     "Current battery level: " ++ pyStr s.battery_level ++ "%",
     "Current load: " ++ pyStr s.current_load]
  match s.battery_power with
  | none => .error ()
  | some b =>
    let batteryLine :=
      if b < 0 then "Power to battery: " ++ toString (b * -1)
      else "Power from battery: " ++ toString b
    match s.grid_power with
    | none => .error ()
    | some g =>
      let gridLine :=
        if g < 0 then "Power to grid: " ++ toString (g * -1)
        else "Power from grid: " ++ toString g
      .ok (header ++ [batteryLine, gridLine,
        "Today\x27s power generation: " ++ pyStr s.power_generation ++ " kWh",
        "Today\x27s output to the grid: " ++ pyStr s.output_to_grid ++ " kWh",
        "Today\x27s input from the grid: " ++ pyStr s.input_from_grid ++ " kWh",
        ""])

/-- One `draw.text` call: x coordinate, y coordinate, text. -/
abbrev DrawOp := Nat × Nat × String

/-- The four draw calls of screen 1. The `Last Update` line uses
`datetime.now()` at render time, not the stored `current_datetime`. -/
def page1Draws (s : DisplayState) (now : Nat) : List DrawOp :=
  [(10, 0, "P: " ++ pyStr s.current_power_production ++ " w"),
   (10, 50, "L: " ++ pyStr s.current_load ++ " w"),
   (10, 100, "B: " ++ pyStr s.battery_level ++ "%"),
   (15, 160, "Last Update: " ++ toString now)]

/-- The nine draw calls of screen 2, given the battery and grid values that
the sign comparisons already extracted. -/
def page2Draws (s : DisplayState) (b g : Int) : List DrawOp :=
  [(10, 0, "Production: " ++ pyStr s.current_power_production ++ " w"),
   (10, 20, "Battery: " ++ pyStr s.battery_level ++ "%"),
   (10, 40, "Load: " ++ pyStr s.current_load ++ " w"),
   (10, 60,
     if b < 0 then "Power to Battery: " ++ toString (b * -1) ++ " w"
     else "Power from Battery: " ++ toString b ++ " w"),
   (10, 80,
     if g < 0 then "Power to Grid: " ++ toString (g * -1) ++ " w"
     else "Power from Grid: " ++ toString g ++ " w"),
   (10, 110, "Power Generation: " ++ pyStr s.power_generation ++ " kWh"),
   (10, 130, "Output to Grid: " ++ pyStr s.output_to_grid ++ " kWh"),
   (10, 150, "Input from Grid: " ++ pyStr s.input_from_grid ++ " kWh")]

/-- `print_to_epaper`: the frame handed to `epd.display_Base`, as the list of
draw calls on the fresh all-white image. The two `if current_screen == N`
tests are independent; any other screen value leaves the frame empty. On
screen 2 a `None` battery or grid value raises `TypeError` at the sign
comparison (`Except.error`), so nothing reaches the display. -/
def print_to_epaper (s : DisplayState) (now : Nat) : Except Unit (List DrawOp) :=
  let f1 := if s.current_screen = 1 then page1Draws s now else []
  if s.current_screen = 2 then
    match s.battery_power with
    | none => .error ()
    | some b =>
      match s.grid_power with
      | none => .error ()
      | some g => .ok (f1 ++ page2Draws s b g)
  else .ok f1

/-- Whether an `Except` completed without a raised exception. -/
def exceptOk : Except Unit α → Bool
  | .ok _ => true
  | .error _ => false

/-- One full iteration of the `while` loop in `poll_alphaess`: the guarded
try block, then `print_to_console()` and `print_to_epaper()` OUTSIDE the
guard — an exception in either of those is uncaught and terminates the loop
(`Except.error`). On success the resulting global state is returned. -/
def poll_tick (s : DisplayState) (fp : Except Unit (Option PowerDict))
    (fe : Except Unit (Option EnergyDict)) (now : Nat) :
    Except Unit DisplayState :=
  let s1 := (tickTryBody s fp fe now).1
  match print_to_console s1 with
  | .error _ => .error ()
  | .ok _ =>
    match print_to_epaper s1 now with
    | .error _ => .error ()
    | .ok _ => .ok s1

/-- `first_button_handler`: set `current_screen = 1`, then render immediately
with the telemetry globals as they are. Returns the new state and the frame
the render produced. -/
def first_button_handler (s : DisplayState) (now : Nat) :
    DisplayState × Except Unit (List DrawOp) :=
  let s1 := { s with current_screen := 1 }
  (s1, print_to_epaper s1 now)

/-- `second_button_handler`: set `current_screen = 2`, then render immediately
with the telemetry globals as they are. -/
def second_button_handler (s : DisplayState) (now : Nat) :
    DisplayState × Except Unit (List DrawOp) :=
  let s1 := { s with current_screen := 2 }
  (s1, print_to_epaper s1 now)

/-- The events that touch the module state: a poll tick, or one of the two
button callbacks. -/
inductive Event where
  | tick (fp : Except Unit (Option PowerDict))
         (fe : Except Unit (Option EnergyDict)) (now : Nat)
  | pressFirst (now : Nat)
  | pressSecond (now : Nat)

/-- The state after one event. -/
def stepEvent (s : DisplayState) (e : Event) : DisplayState :=
  match e with
  | .tick fp fe now => (tickTryBody s fp fe now).1
  | .pressFirst now => (first_button_handler s now).1
  | .pressSecond now => (second_button_handler s now).1

/-- The screen invariant: `current_screen` is 1 or 2. -/
def screenInv (s : DisplayState) : Prop :=
  s.current_screen = 1 ∨ s.current_screen = 2

/-! ## Supporting lemmas for the signature digest -/

/-- Compressing a chunk preserves the eight-word hash length. -/
theorem compressChunk_length (h c : List Nat) (hl : h.length = 8) :
    (compressChunk h c).length = 8 := by
  simp [compressChunk, List.length_zipWith, hl]

/-- Folding the compression over any chunk list preserves the length. -/
theorem foldl_compress_length (cs : List (List Nat)) (h : List Nat)
    (hl : h.length = 8) : (cs.foldl compressChunk h).length = 8 := by
  induction cs generalizing h with
  | nil => simpa using hl
  | cons c cs ih => exact ih _ (compressChunk_length h c hl)

/-- SHA-512 always yields eight hash words. -/
theorem sha512Words_length (msg : List Nat) : (sha512Words msg).length = 8 :=
  foldl_compress_length _ _ rfl

/-- One word always prints as sixteen hex characters. -/
theorem wordHex_length (w : Nat) : (wordHex w).length = 16 := by
  simp [wordHex]

/-- The total character count of the per-word hex blocks. -/
theorem sum_map_wordHex_length (ws : List Nat) :
    ((ws.map wordHex).map List.length).sum = 16 * ws.length := by
  induction ws with
  | nil => simp
  | cons w ws ih =>
    simp only [List.map_cons, List.sum_cons, ih, wordHex_length, List.length_cons]
    ring

/-- The sixteen characters Python hex digests are made of. -/
def hexAlphabet : List Char := "0123456789abcdef".toList

/-- Each of the sixteen digit values prints inside the hex alphabet. -/
theorem hexChar_mem (m : Nat) (hm : m < 16) : hexChar m ∈ hexAlphabet := by
  have h16 : ∀ m < 16, hexChar m ∈ hexAlphabet := by decide
  exact h16 m hm

/-- Every character of a word's hex block is a hex digit. -/
theorem wordHex_subset (w : Nat) : ∀ c ∈ wordHex w, c ∈ hexAlphabet := by
  intro c hc
  simp only [wordHex, List.mem_map, List.mem_range] at hc
  obtain ⟨i, _, rfl⟩ := hc
  exact hexChar_mem _ (Nat.mod_lt _ (by norm_num))

/-- The hex digest of any message has exactly 128 characters. -/
theorem sha512_hex_length (msg : List Nat) : (sha512_hex msg).length = 128 := by
  show (((sha512Words msg).map wordHex).flatten).length = 128
  rw [List.length_flatten, sum_map_wordHex_length, sha512Words_length]

/-- Every character of the hex digest is a hex digit. -/
theorem sha512_hex_charset (msg : List Nat) :
    ∀ c ∈ (sha512_hex msg).toList, c ∈ hexAlphabet := by
  intro c hc
  have hc2 : c ∈ ((sha512Words msg).map wordHex).flatten := hc
  rw [List.mem_flatten] at hc2
  obtain ⟨l, hl, hcl⟩ := hc2
  rw [List.mem_map] at hl
  obtain ⟨w, _, rfl⟩ := hl
  exact wordHex_subset w c hcl

/-! ## Claim theorems -/

/-- C5: for every (appId, appSecret, timestamp) triple whose concatenation is
ASCII, the signature is deterministic, equals the SHA-512 hex digest of the
concatenation of appId, appSecret and the decimal timestamp string, and is a
128-character string over the hex alphabet. -/
theorem c5_signature_digest (appId appSecret timestamp : String)
    (h : allAscii (appId ++ appSecret ++ timestamp) = true) :
    ∃ d : String,
      getSignature appId appSecret timestamp = .ok d ∧
      d = sha512_hex (asciiBytes (appId ++ appSecret ++ timestamp)) ∧
      d.length = 128 ∧
      (∀ c ∈ d.toList, c ∈ hexAlphabet) ∧
      ∀ a2 s2 t2 : String, a2 = appId → s2 = appSecret → t2 = timestamp →
        getSignature a2 s2 t2 = getSignature appId appSecret timestamp := by
  refine ⟨sha512_hex (asciiBytes (appId ++ appSecret ++ timestamp)), ?_, rfl,
    sha512_hex_length _, sha512_hex_charset _, ?_⟩
  · simp [getSignature, h]
  · intro a2 s2 t2 ha hs ht
    subst ha; subst hs; subst ht; rfl

/-- C5 witness: the signature contract at a concrete credential triple. -/
theorem c5_signature_digest_witness :
    ∃ d : String,
      getSignature "testAppId" "testSecret" "1700000000" = .ok d ∧
      d = sha512_hex (asciiBytes ("testAppId" ++ "testSecret" ++ "1700000000")) ∧
      d.length = 128 ∧
      (∀ c ∈ d.toList, c ∈ hexAlphabet) ∧
      ∀ a2 s2 t2 : String, a2 = "testAppId" → s2 = "testSecret" →
        t2 = "1700000000" →
        getSignature a2 s2 t2 = getSignature "testAppId" "testSecret" "1700000000" :=
  c5_signature_digest "testAppId" "testSecret" "1700000000" (by decide)

/-- C2 counterexample: with `code = 200` and a single-object `data`, the
operation returns the one-element list, but `sys_sn_list` is set to the bare
`sysSn` string (`r['data']['sysSn']`), not to a one-element list of it as the
claim states. -/
theorem c2_counterexample :
    (get_ess_list .noneYet
      (.response 200 (some ⟨200, "Success", .single ⟨"AL2002321010021", 10100⟩⟩))).1 =
      .ok (some [⟨"AL2002321010021", 10100⟩]) ∧
    (get_ess_list .noneYet
      (.response 200 (some ⟨200, "Success", .single ⟨"AL2002321010021", 10100⟩⟩))).2.1 =
      SnList.oneStr "AL2002321010021" ∧
    SnList.oneStr "AL2002321010021" ≠ SnList.strList ["AL2002321010021"] := by
  refine ⟨rfl, rfl, by decide⟩

/-- C2 amended: with `code = 200`, a single-object `data` yields a one-element
result list and an array of N objects yields all N in order; `sys_sn_list`
becomes the `sysSn` fields in order in the array case, but in the
single-object case it becomes the object's bare `sysSn` string, not a
one-element list. -/
theorem c2_list_normalization (l : List SystemInfo) (x : SystemInfo)
    (m : String) (old : SnList) :
    get_ess_list old (.response 200 (some ⟨200, m, .array l⟩)) =
      (.ok (some l), .strList (l.map SystemInfo.sysSn), []) ∧
    get_ess_list old (.response 200 (some ⟨200, m, .single x⟩)) =
      (.ok (some [x]), .oneStr x.sysSn, []) :=
  ⟨rfl, rfl⟩

/-- C3 counterexample: an HTTP 200 response whose body is not JSON makes
`resp.json()` raise before the status check; the exception escapes
`get_last_power_data` to its caller instead of becoming an absent result. -/
theorem c3_counterexample :
    get_last_power_data (.response 200 none) = (.error (), []) ∧
    exceptOk (get_last_power_data (.response 200 none)).1 = false :=
  ⟨rfl, rfl⟩

/-- C3 amended: a non-200 HTTP status whose body still parses as JSON is
logged and yields an absent result without raising; but a body that fails to
parse as JSON (at any status), or a network error, raises out of the request
helpers and propagates past the service operations to their caller. -/
theorem c3_transport_failures (α : Type) (st stp : Int) (j : Envelope α)
    (date : String) (hst : st ≠ 200) :
    get_request α (.response st (some j)) = (.ok none, [.getRequestError st]) ∧
    post_request α (.response st (some j)) = (.ok none, [.postRequestError st]) ∧
    get_request α (.response stp none) = (.error (), []) ∧
    get_request α .netError = (.error (), []) ∧
    get_last_power_data (.response stp none) = (.error (), []) ∧
    get_one_date_energy date (.response stp none) = (.error (), []) ∧
    get_last_power_data .netError = (.error (), []) := by
  refine ⟨?_, ?_, rfl, rfl, rfl, rfl, rfl⟩ <;>
    simp [get_request, post_request, hst]

/-- C3 witness: the transport-failure taxonomy at concrete responses. -/
theorem c3_transport_failures_witness :
    get_request Int (.response 404 (some ⟨500, "err", 0⟩)) =
      (.ok none, [.getRequestError 404]) ∧
    post_request Int (.response 404 (some ⟨500, "err", 0⟩)) =
      (.ok none, [.postRequestError 404]) ∧
    get_request Int (.response 200 none) = (.error (), []) ∧
    get_request Int .netError = (.error (), []) ∧
    get_last_power_data (.response 200 none) = (.error (), []) ∧
    get_one_date_energy "2024-05-01" (.response 200 none) = (.error (), []) ∧
    get_last_power_data .netError = (.error (), []) :=
  c3_transport_failures Int 404 200 ⟨500, "err", 0⟩ "2024-05-01" (by decide)

/-- C4: whenever the vendor envelope carries `code ≠ 200`, each of the six
endpoint operations logs the vendor code and message and returns an absent
value — no default and no partially-populated payload (and `get_ess_list`
leaves `sys_sn_list` untouched). -/
theorem c4_vendor_code_absent (code : Int) (m : String) (pd : PowerDict)
    (ed : EnergyDict) (d : EssData) (old : SnList) (α : Type) (x : α)
    (sn date : String) (hc : code ≠ 200) :
    get_last_power_data (.response 200 (some ⟨code, m, pd⟩)) =
      (.ok none, [.lastPowerDataError code m]) ∧
    get_one_date_energy date (.response 200 (some ⟨code, m, ed⟩)) =
      (.ok none, [.oneDateEnergyError code m]) ∧
    get_ess_list old (.response 200 (some ⟨code, m, d⟩)) =
      (.ok none, old, [.essListError code m]) ∧
    get_one_date_power_by_sn α sn date (.response 200 (some ⟨code, m, x⟩)) =
      (.ok none, [.oneDatePowerError code m]) ∧
    get_in_charge_config_info α sn (.response 200 (some ⟨code, m, x⟩)) =
      (.ok none, [.inChargeConfigError code m]) ∧
    get_out_charge_config_info α sn (.response 200 (some ⟨code, m, x⟩)) =
      (.ok none, [.outChargeConfigError code m]) := by
  refine ⟨?_, ?_, ?_, ?_, ?_, ?_⟩ <;>
    simp [get_last_power_data, get_one_date_energy, get_ess_list,
      get_one_date_power_by_sn, get_in_charge_config_info,
      get_out_charge_config_info, get_request, hc]

/-- C4 witness: vendor failure 6005 at each endpoint. -/
theorem c4_vendor_code_absent_witness :
    get_last_power_data
      (.response 200 (some ⟨6005, "sign error", ⟨some 1, some 2, some 3, some 4, some 5⟩⟩)) =
      (.ok none, [.lastPowerDataError 6005 "sign error"]) ∧
    get_one_date_energy "2024-05-01"
      (.response 200 (some ⟨6005, "sign error", ⟨some 1, some 2, some 3⟩⟩)) =
      (.ok none, [.oneDateEnergyError 6005 "sign error"]) ∧
    get_ess_list .noneYet
      (.response 200 (some ⟨6005, "sign error", .array []⟩)) =
      (.ok none, .noneYet, [.essListError 6005 "sign error"]) ∧
    get_one_date_power_by_sn Int "SN1" "2024-05-01"
      (.response 200 (some ⟨6005, "sign error", 0⟩)) =
      (.ok none, [.oneDatePowerError 6005 "sign error"]) ∧
    get_in_charge_config_info Int "SN1"
      (.response 200 (some ⟨6005, "sign error", 0⟩)) =
      (.ok none, [.inChargeConfigError 6005 "sign error"]) ∧
    get_out_charge_config_info Int "SN1"
      (.response 200 (some ⟨6005, "sign error", 0⟩)) =
      (.ok none, [.outChargeConfigError 6005 "sign error"]) :=
  c4_vendor_code_absent 6005 "sign error" ⟨some 1, some 2, some 3, some 4, some 5⟩
    ⟨some 1, some 2, some 3⟩ (.array []) .noneYet Int 0 "SN1" "2024-05-01" (by decide)

/-- A tick never changes which screen is current. -/
theorem tickTryBody_screen (s : DisplayState) (fp : Except Unit (Option PowerDict))
    (fe : Except Unit (Option EnergyDict)) (now : Nat) :
    (tickTryBody s fp fe now).1.current_screen = s.current_screen := by
  cases fp with
  | error e => rfl
  | ok pd =>
    cases fe with
    | error e => rfl
    | ok ed =>
      cases pd with
      | none => rfl
      | some p =>
        cases ed with
        | none => rfl
        | some e => rfl

/-- C1 counterexample: a tick whose power snapshot arrives but whose daily
energy totals are absent does NOT leave the state unchanged — the five power
fields are assigned before `energy_stats.get('epv')` raises, and the tick
completes with that partially updated state. -/
theorem c1_counterexample :
    poll_tick (initialState 0)
      (.ok (some ⟨some 100, some 55, some (-20), some (-500), some 300⟩))
      (.ok none) 7 =
      .ok (assignPower (initialState 0)
            ⟨some 100, some 55, some (-20), some (-500), some 300⟩) ∧
    assignPower (initialState 0)
        ⟨some 100, some 55, some (-20), some (-500), some 300⟩ ≠
      initialState 0 := by
  refine ⟨rfl, ?_⟩
  intro h
  have : (some (100 : Int) : Option Int) = some 0 :=
    congrArg DisplayState.current_power_production h
  simp at this

/-- C1 amended: a tick whose power fetch raises, whose power snapshot is
absent, or whose energy fetch raises leaves the whole state unchanged and the
exception is caught; a tick whose power snapshot is present but whose energy
totals are absent updates the five power fields while leaving the three daily
totals, the last-update time and the screen unchanged; and the tick only
crashes the loop when the unguarded output stage itself raises. -/
theorem c1_tick_failure_state (s : DisplayState) (p : PowerDict)
    (fe : Except Unit (Option EnergyDict)) (now : Nat) :
    tickTryBody s (.error ()) fe now = (s, true) ∧
    tickTryBody s (.ok none) fe now = (s, true) ∧
    tickTryBody s (.ok (some p)) (.error ()) now = (s, true) ∧
    tickTryBody s (.ok (some p)) (.ok none) now = (assignPower s p, true) ∧
    (assignPower s p).power_generation = s.power_generation ∧
    (assignPower s p).output_to_grid = s.output_to_grid ∧
    (assignPower s p).input_from_grid = s.input_from_grid ∧
    (assignPower s p).current_datetime = s.current_datetime ∧
    (assignPower s p).current_screen = s.current_screen ∧
    exceptOk (poll_tick s (.error ()) fe now) =
      (exceptOk (print_to_console s) && exceptOk (print_to_epaper s now)) := by
  refine ⟨rfl, ?_, rfl, rfl, rfl, rfl, rfl, rfl, rfl, ?_⟩
  · cases fe <;> rfl
  · cases hc : print_to_console s <;>
      cases he : print_to_epaper s now <;>
        simp [poll_tick, tickTryBody, exceptOk, hc, he]

/-- C9 counterexample: a tick that stores a missing `pbat` key leaves
`battery_power = None`; `print_to_console` then compares `None < 0` OUTSIDE
the try block, and the uncaught `TypeError` terminates the loop. -/
theorem c9_counterexample :
    poll_tick (initialState 0)
      (.ok (some ⟨some 1200, some 50, some 10, none, some 480⟩))
      (.ok (some ⟨some 9, some 2, some 3⟩)) 9 = .error () := rfl

/-- C9 amended: the catch-all guard covers only the fetch/extraction block,
whose failures never crash the tick; the console and e-paper output run
outside the guard, and the tick crashes the loop exactly when one of them
raises on the post-guard state. -/
theorem c9_guard_scope (s : DisplayState) (fp : Except Unit (Option PowerDict))
    (fe : Except Unit (Option EnergyDict)) (now : Nat) :
    exceptOk (poll_tick s fp fe now) =
      (exceptOk (print_to_console (tickTryBody s fp fe now).1) &&
       exceptOk (print_to_epaper (tickTryBody s fp fe now).1 now)) := by
  cases hc : print_to_console (tickTryBody s fp fe now).1 <;>
    cases he : print_to_epaper (tickTryBody s fp fe now).1 now <;>
      simp [poll_tick, exceptOk, hc, he]


/-- C6: on the detailed page, a negative battery value renders
"Power to Battery" with the absolute value and a non-negative one renders
"Power from Battery" with the value itself; the same rule holds for the grid
line, and the console printer applies the same sign switch. -/
theorem c6_sign_labels (s : DisplayState) (b g : Int) (now : Nat)
    (hb : s.battery_power = some b) (hg : s.grid_power = some g)
    (hs2 : s.current_screen = 2) :
    print_to_epaper s now = .ok (page2Draws s b g) ∧
    ((10, 60,
      if b < 0 then "Power to Battery: " ++ toString (b * -1) ++ " w"
      else "Power from Battery: " ++ toString b ++ " w") ∈ page2Draws s b g) ∧
    ((10, 80,
      if g < 0 then "Power to Grid: " ++ toString (g * -1) ++ " w"
      else "Power from Grid: " ++ toString g ++ " w") ∈ page2Draws s b g) ∧
    (∃ out, print_to_console s = .ok out ∧
      (if b < 0 then "Power to battery: " ++ toString (b * -1)
       else "Power from battery: " ++ toString b) ∈ out ∧
      (if g < 0 then "Power to grid: " ++ toString (g * -1)
       else "Power from grid: " ++ toString g) ∈ out) := by
  refine ⟨?_, ?_, ?_, ?_⟩
  · simp [print_to_epaper, hs2, hb, hg]
  · simp [page2Draws]
  · simp [page2Draws]
  · refine ⟨["Current date and time: " ++ toString s.current_datetime,
      String.mk (List.replicate 49 (Char.ofNat 61)),
      "Current power production: " ++ pyStr s.current_power_production,
      "Current battery level: " ++ pyStr s.battery_level ++ "%",
      "Current load: " ++ pyStr s.current_load] ++
      [(if b < 0 then "Power to battery: " ++ toString (b * -1)
        else "Power from battery: " ++ toString b),
       (if g < 0 then "Power to grid: " ++ toString (g * -1)
        else "Power from grid: " ++ toString g),
       "Today\x27s power generation: " ++ pyStr s.power_generation ++ " kWh",
       "Today\x27s output to the grid: " ++ pyStr s.output_to_grid ++ " kWh",
       "Today\x27s input from the grid: " ++ pyStr s.input_from_grid ++ " kWh",
       ""], ?_, ?_, ?_⟩
    · simp [print_to_console, hb, hg]
    · simp
    · simp

/-- C6 witness: `batteryW = -500` renders "Power to Battery: 500 w" and
`gridW = 500` renders "Power from Grid: 500 w" at a concrete state. -/
theorem c6_sign_labels_witness :
    print_to_epaper { initialState 0 with battery_power := some (-500), grid_power := some 500, current_screen := 2 } 3 =
      .ok (page2Draws { initialState 0 with battery_power := some (-500), grid_power := some 500, current_screen := 2 } (-500) 500) ∧
    ((10, 60,
      if (-500 : Int) < 0 then "Power to Battery: " ++ toString ((-500 : Int) * -1) ++ " w"
      else "Power from Battery: " ++ toString (-500 : Int) ++ " w") ∈
        page2Draws { initialState 0 with battery_power := some (-500), grid_power := some 500, current_screen := 2 } (-500) 500) ∧
    ((10, 80,
      if (500 : Int) < 0 then "Power to Grid: " ++ toString ((500 : Int) * -1) ++ " w"
      else "Power from Grid: " ++ toString (500 : Int) ++ " w") ∈
        page2Draws { initialState 0 with battery_power := some (-500), grid_power := some 500, current_screen := 2 } (-500) 500) ∧
    (∃ out, print_to_console { initialState 0 with battery_power := some (-500), grid_power := some 500, current_screen := 2 } = .ok out ∧
      (if (-500 : Int) < 0 then "Power to battery: " ++ toString ((-500 : Int) * -1)
       else "Power from battery: " ++ toString (-500 : Int)) ∈ out ∧
      (if (500 : Int) < 0 then "Power to grid: " ++ toString ((500 : Int) * -1)
       else "Power from grid: " ++ toString (500 : Int)) ∈ out) :=
  c6_sign_labels { initialState 0 with battery_power := some (-500), grid_power := some 500, current_screen := 2 }
    (-500) 500 3 rfl rfl rfl

/-- C7: each button handler changes the current page and immediately renders
with the telemetry globals exactly as the last successful tick left them: the
second button yields the page-2 frame of the stale snapshot at once, the
first button the page-1 frame. -/
theorem c7_setpage_rerender (s : DisplayState) (b g : Int) (now : Nat)
    (hb : s.battery_power = some b) (hg : s.grid_power = some g) :
    (second_button_handler s now).1.current_screen = 2 ∧
    (second_button_handler s now).1.current_power_production = s.current_power_production ∧
    (second_button_handler s now).1.battery_level = s.battery_level ∧
    (second_button_handler s now).1.grid_power = s.grid_power ∧
    (second_button_handler s now).1.battery_power = s.battery_power ∧
    (second_button_handler s now).1.current_load = s.current_load ∧
    (second_button_handler s now).1.power_generation = s.power_generation ∧
    (second_button_handler s now).1.output_to_grid = s.output_to_grid ∧
    (second_button_handler s now).1.input_from_grid = s.input_from_grid ∧
    (second_button_handler s now).1.current_datetime = s.current_datetime ∧
    (second_button_handler s now).2 =
      print_to_epaper { s with current_screen := 2 } now ∧
    (second_button_handler s now).2 =
      .ok (page2Draws { s with current_screen := 2 } b g) ∧
    (first_button_handler s now).1.current_screen = 1 ∧
    (first_button_handler s now).2 =
      .ok (page1Draws { s with current_screen := 1 } now) := by
  refine ⟨rfl, rfl, rfl, rfl, rfl, rfl, rfl, rfl, rfl, rfl, rfl, ?_, rfl, ?_⟩
  · simp [second_button_handler, print_to_epaper, hb, hg]
  · simp [first_button_handler, print_to_epaper]

/-- C7 witness: pressing the second button at a concrete stale state renders
the page-2 frame of that state at once. -/
theorem c7_setpage_rerender_witness :
    (second_button_handler { initialState 9 with battery_power := some 250, grid_power := some (-125) } 11).1.current_screen = 2 ∧
    (second_button_handler { initialState 9 with battery_power := some 250, grid_power := some (-125) } 11).1.current_power_production =
      ({ initialState 9 with battery_power := some 250, grid_power := some (-125) } : DisplayState).current_power_production ∧
    (second_button_handler { initialState 9 with battery_power := some 250, grid_power := some (-125) } 11).1.battery_level =
      ({ initialState 9 with battery_power := some 250, grid_power := some (-125) } : DisplayState).battery_level ∧
    (second_button_handler { initialState 9 with battery_power := some 250, grid_power := some (-125) } 11).1.grid_power =
      ({ initialState 9 with battery_power := some 250, grid_power := some (-125) } : DisplayState).grid_power ∧
    (second_button_handler { initialState 9 with battery_power := some 250, grid_power := some (-125) } 11).1.battery_power =
      ({ initialState 9 with battery_power := some 250, grid_power := some (-125) } : DisplayState).battery_power ∧
    (second_button_handler { initialState 9 with battery_power := some 250, grid_power := some (-125) } 11).1.current_load =
      ({ initialState 9 with battery_power := some 250, grid_power := some (-125) } : DisplayState).current_load ∧
    (second_button_handler { initialState 9 with battery_power := some 250, grid_power := some (-125) } 11).1.power_generation =
      ({ initialState 9 with battery_power := some 250, grid_power := some (-125) } : DisplayState).power_generation ∧
    (second_button_handler { initialState 9 with battery_power := some 250, grid_power := some (-125) } 11).1.output_to_grid =
      ({ initialState 9 with battery_power := some 250, grid_power := some (-125) } : DisplayState).output_to_grid ∧
    (second_button_handler { initialState 9 with battery_power := some 250, grid_power := some (-125) } 11).1.input_from_grid =
      ({ initialState 9 with battery_power := some 250, grid_power := some (-125) } : DisplayState).input_from_grid ∧
    (second_button_handler { initialState 9 with battery_power := some 250, grid_power := some (-125) } 11).1.current_datetime =
      ({ initialState 9 with battery_power := some 250, grid_power := some (-125) } : DisplayState).current_datetime ∧
    (second_button_handler { initialState 9 with battery_power := some 250, grid_power := some (-125) } 11).2 =
      print_to_epaper { { initialState 9 with battery_power := some 250, grid_power := some (-125) } with current_screen := 2 } 11 ∧
    (second_button_handler { initialState 9 with battery_power := some 250, grid_power := some (-125) } 11).2 =
      .ok (page2Draws { { initialState 9 with battery_power := some 250, grid_power := some (-125) } with current_screen := 2 } 250 (-125)) ∧
    (first_button_handler { initialState 9 with battery_power := some 250, grid_power := some (-125) } 11).1.current_screen = 1 ∧
    (first_button_handler { initialState 9 with battery_power := some 250, grid_power := some (-125) } 11).2 =
      .ok (page1Draws { { initialState 9 with battery_power := some 250, grid_power := some (-125) } with current_screen := 1 } 11) :=
  c7_setpage_rerender { initialState 9 with battery_power := some 250, grid_power := some (-125) }
    250 (-125) 11 rfl rfl

/-- C8 counterexample: before any poll tick the globals hold their zero
defaults, and the first render is NOT a blank/placeholder frame — it presents
"P: 0 w", "L: 0 w", "B: 0%" as if they were real telemetry. -/
theorem c8_counterexample :
    print_to_epaper (initialState 0) 5 =
      .ok [(10, 0, "P: 0 w"), (10, 50, "L: 0 w"), (10, 100, "B: 0%"),
           (15, 160, "Last Update: 5")] ∧
    print_to_epaper (initialState 0) 5 ≠ .ok [] := by
  refine ⟨rfl, ?_⟩
  intro h
  have h0 : print_to_epaper (initialState 0) 5 =
      .ok [(10, 0, "P: 0 w"), (10, 50, "L: 0 w"), (10, 100, "B: 0%"),
           (15, 160, "Last Update: 5")] := rfl
  rw [h0] at h
  have h2 : ([(10, 0, "P: 0 w"), (10, 50, "L: 0 w"), (10, 100, "B: 0%"),
      (15, 160, "Last Update: 5")] : List DrawOp) = [] :=
    (Except.ok.injEq _ _).mp h
  exact absurd h2 (by simp)

/-- C8 amended: if no telemetry snapshot has ever arrived, the render does
not fail — but instead of a blank frame it renders the zero-initialized
default globals of page 1. -/
theorem c8_initial_render (t0 now : Nat) :
    print_to_epaper (initialState t0) now =
      .ok [(10, 0, "P: 0 w"), (10, 50, "L: 0 w"), (10, 100, "B: 0%"),
           (15, 160, "Last Update: " ++ toString now)] ∧
    exceptOk (print_to_epaper (initialState t0) now) = true :=
  ⟨rfl, rfl⟩

/-- C10: the current screen starts at 1, stays in {1, 2} under every tick and
button event, and for any other (unreachable) screen value the renderer
emits an empty all-white frame rather than failing; on screen 1 it takes the
page-1 layout branch. -/
theorem c10_screen_invariant (t0 : Nat) (s : DisplayState) (e : Event)
    (n now : Nat) (hs : screenInv s) (h1 : n ≠ 1) (h2 : n ≠ 2) :
    (initialState t0).current_screen = 1 ∧
    screenInv (stepEvent s e) ∧
    print_to_epaper { s with current_screen := n } now = .ok [] ∧
    (s.current_screen = 1 →
      print_to_epaper s now = .ok (page1Draws s now)) := by
  refine ⟨rfl, ?_, ?_, ?_⟩
  · cases e with
    | tick fp fe nw =>
      show screenInv (tickTryBody s fp fe nw).1
      unfold screenInv
      rw [tickTryBody_screen]
      exact hs
    | pressFirst nw => exact Or.inl rfl
    | pressSecond nw => exact Or.inr rfl
  · simp [print_to_epaper, h1, h2]
  · intro hscr
    simp [print_to_epaper, hscr]

/-- C10 witness: the invariant clauses at a concrete state, event, and
out-of-range screen value. -/
theorem c10_screen_invariant_witness :
    (initialState 0).current_screen = 1 ∧
    screenInv (stepEvent (initialState 0) (.pressSecond 4)) ∧
    print_to_epaper { initialState 0 with current_screen := 7 } 4 = .ok [] ∧
    ((initialState 0).current_screen = 1 →
      print_to_epaper (initialState 0) 4 = .ok (page1Draws (initialState 0) 4)) :=
  c10_screen_invariant 0 (initialState 0) (.pressSecond 4) 7 4
    (Or.inl rfl) (by decide) (by decide)
